import Mathlib

/-!
Verification of the real-time chat core of the synergazing backend.

The development shallowly embeds two Go source files:
* the chat service (`GetOrCreateChat`, `SendMessage`, `MarkMessagesAsRead`,
  `UserHasAccessToChat`, `GetChatByID`, `GetChatParticipants`) over an
  explicit in-memory database state, and
* the WebSocket chat controller (`sendToUser`, `sendError`,
  `broadcastToChat`, the four command handlers, the read loop and
  `HandleWebSocket`) over an explicit connection-registry state, with
  write failures supplied by an environment function and all outbound
  write attempts recorded in a trace.

User ids, chat ids, message ids and connection-handle ids are natural
numbers.  Go map operations on `connections` become association-list
operations that keep at most one entry per key.
-/

deriving instance DecidableEq for Except

/-- A chat row: two participant ids (`user1_id`, `user2_id`). -/
structure Chat where
  id : Nat
  user1ID : Nat
  user2ID : Nat
deriving DecidableEq

/-- A message row, as created by `SendMessage`. -/
structure Message where
  id : Nat
  chatID : Nat
  senderID : Nat
  content : String
  isRead : Bool
deriving DecidableEq

/-- The persistent store consumed by the chat service: chat rows, message
rows, and the next fresh primary keys. -/
structure ChatDB where
  chats : List Chat
  messages : List Message
  nextChatID : Nat
  nextMessageID : Nat
deriving DecidableEq

/-- `UserHasAccessToChat`: the chat with this id exists and lists the user
as one of its two participants. -/
def UserHasAccessToChat (db : ChatDB) (chatID userID : Nat) : Bool :=
  db.chats.any (fun c => c.id == chatID && (c.user1ID == userID || c.user2ID == userID))

/-- `GetOrCreateChat`: reject `a = a`; normalize so the smaller id comes
first; return the existing chat matching the pair in either order, else
insert a fresh normalized chat row. -/
def GetOrCreateChat (db : ChatDB) (user1ID user2ID : Nat) :
    Except String (Chat × ChatDB) :=
  if user1ID == user2ID then
    Except.error "cannot create chat with yourself"
  else
    let u1 := if user1ID > user2ID then user2ID else user1ID
    let u2 := if user1ID > user2ID then user1ID else user2ID
    match db.chats.find? (fun c =>
        (c.user1ID == u1 && c.user2ID == u2) || (c.user1ID == u2 && c.user2ID == u1)) with
    | some c => Except.ok (c, db)
    | none =>
      let newChat : Chat := { id := db.nextChatID, user1ID := u1, user2ID := u2 }
      Except.ok (newChat,
        { db with chats := db.chats ++ [newChat], nextChatID := db.nextChatID + 1 })

/-- `SendMessage`: access check, non-empty content, then append a fresh
unread message row. -/
def SendMessage (db : ChatDB) (chatID senderID : Nat) (content : String) :
    Except String (Message × ChatDB) :=
  if !UserHasAccessToChat db chatID senderID then
    Except.error "unauthorized access to chat"
  else if content == "" then
    Except.error "message content cannot be empty"
  else
    let message : Message :=
      { id := db.nextMessageID, chatID := chatID, senderID := senderID
        content := content, isRead := false }
    Except.ok (message,
      { db with messages := db.messages ++ [message]
                nextMessageID := db.nextMessageID + 1 })

/-- The row-level effect of the `mark_read` UPDATE: flip `is_read` on rows
of this chat not sent by the reader that are still unread. -/
def markReadRow (chatID userID : Nat) (m : Message) : Message :=
  if m.chatID == chatID && m.senderID != userID && m.isRead == false then
    { m with isRead := true }
  else m

/-- `MarkMessagesAsRead`: access check, then run the UPDATE over every
message row. -/
def MarkMessagesAsRead (db : ChatDB) (chatID userID : Nat) :
    Except String ChatDB :=
  if !UserHasAccessToChat db chatID userID then
    Except.error "unauthorized access to chat"
  else
    Except.ok { db with messages := db.messages.map (markReadRow chatID userID) }

/-- `GetChatByID`: access check, then fetch the chat row by primary key. -/
def GetChatByID (db : ChatDB) (chatID userID : Nat) : Except String Chat :=
  if !UserHasAccessToChat db chatID userID then
    Except.error "unauthorized access to chat"
  else
    match db.chats.find? (fun c => c.id == chatID) with
    | none => Except.error "chat not found"
    | some c => Except.ok c

/-- `GetChatParticipants`: fetch the two participant ids by primary key,
with no access check. -/
def GetChatParticipants (db : ChatDB) (chatID : Nat) :
    Except String (Nat × Nat) :=
  match db.chats.find? (fun c => c.id == chatID) with
  | none => Except.error "chat not found"
  | some c => Except.ok (c.user1ID, c.user2ID)

/-- Database well-formedness used for canonical ordering: every stored chat
row keeps the smaller participant id first. -/
def ChatDB.normalized (db : ChatDB) : Prop :=
  ∀ c ∈ db.chats, c.user1ID ≤ c.user2ID

instance (db : ChatDB) : Decidable db.normalized := by
  unfold ChatDB.normalized
  infer_instance

/-! ## The WebSocket controller -/

/-- The wire envelope `WebSocketMessage`: type tag, optional chat id and
content, and an abstracted `data` payload (its textual summary). -/
structure Msg where
  type : String
  chatID : Nat
  content : String
  data : String
deriving DecidableEq

/-- One outbound write, as recorded in the trace: the target user id, the
connection-handle id written to, and the envelope. -/
structure Attempt where
  uid : Nat
  cid : Nat
  msg : Msg
deriving DecidableEq

/-- Observable effects of controller code: writes attempted, writes that
succeeded, and connection handles closed. -/
structure Trace where
  attempts : List Attempt
  delivered : List Attempt
  closed : List Nat
deriving DecidableEq

def Trace.empty : Trace := ⟨[], [], []⟩

def Trace.append (t1 t2 : Trace) : Trace :=
  ⟨t1.attempts ++ t2.attempts, t1.delivered ++ t2.delivered, t1.closed ++ t2.closed⟩

instance : Append Trace := ⟨Trace.append⟩

/-- The registry map `connections : map[uint]*websocket.Conn`, as an
association list from user id to connection-handle id with at most one
entry per user id. -/
def registryLookup (conns : List (Nat × Nat)) (uid : Nat) : Option Nat :=
  (conns.find? (fun p => p.1 == uid)).map (fun p => p.2)

def registryDelete (conns : List (Nat × Nat)) (uid : Nat) : List (Nat × Nat) :=
  conns.filter (fun p => p.1 != uid)

def registryInsert (conns : List (Nat × Nat)) (uid cid : Nat) : List (Nat × Nat) :=
  (uid, cid) :: registryDelete conns uid

/-- The mutable state of `ChatController`: the connection registry. -/
structure Ctrl where
  connections : List (Nat × Nat)
deriving DecidableEq

/-- The environment decides which connection handles fail on write
(`WriteJSON` returning an error). -/
def WriteEnv := Nat → Bool

/-- `sendToUser`: look the user up in the registry; if present, attempt the
write; on write failure delete the user's registry entry and close the
handle.  Absent users and write failures are not reported anywhere. -/
def sendToUser (w : WriteEnv) (ctrl : Ctrl) (userID : Nat) (msg : Msg) :
    Ctrl × Trace :=
  match registryLookup ctrl.connections userID with
  | none => (ctrl, Trace.empty)
  | some cid =>
    if w cid then
      ({ connections := registryDelete ctrl.connections userID },
        ⟨[⟨userID, cid, msg⟩], [], [cid]⟩)
    else
      (ctrl, ⟨[⟨userID, cid, msg⟩], [⟨userID, cid, msg⟩], []⟩)

/-- `sendError`: wrap the error text in an `error` envelope for the user. -/
def sendError (w : WriteEnv) (ctrl : Ctrl) (userID : Nat) (errorMsg : String) :
    Ctrl × Trace :=
  sendToUser w ctrl userID { type := "error", chatID := 0, content := "", data := errorMsg }

/-- A single target of `broadcastToChat`: look up the target; if connected,
attempt the write; a failure is logged only — the registry is untouched and
the handle stays registered. -/
def broadcastOne (w : WriteEnv) (ctrl : Ctrl) (target : Nat) (msg : Msg) : Trace :=
  match registryLookup ctrl.connections target with
  | none => Trace.empty
  | some cid =>
    if w cid then ⟨[⟨target, cid, msg⟩], [], []⟩
    else ⟨[⟨target, cid, msg⟩], [⟨target, cid, msg⟩], []⟩

/-- `broadcastToChat`: resolve the chat's two participants once; abort (log
only) if the chat is unknown; otherwise write the event independently to
each connected participant.  Never mutates the registry. -/
def broadcastToChat (w : WriteEnv) (db : ChatDB) (ctrl : Ctrl) (chatID : Nat)
    (msg : Msg) : Ctrl × Trace :=
  match GetChatParticipants db chatID with
  | Except.error _ => (ctrl, Trace.empty)
  | Except.ok (user1ID, user2ID) =>
    (ctrl, Trace.append (broadcastOne w ctrl user1ID msg) (broadcastOne w ctrl user2ID msg))

/-- Result of one handler or of the read loop: updated store, updated
registry, effects. -/
structure HandlerOut where
  db : ChatDB
  ctrl : Ctrl
  trace : Trace
deriving DecidableEq

/-- `handleSendMessage`: validate, persist through the service, then
broadcast a `new_message` event to the chat. -/
def handleSendMessage (w : WriteEnv) (db : ChatDB) (ctrl : Ctrl) (userID : Nat)
    (msg : Msg) : HandlerOut :=
  if msg.chatID == 0 || msg.content == "" then
    let r := sendError w ctrl userID "Invalid message data"
    ⟨db, r.1, r.2⟩
  else
    match SendMessage db msg.chatID userID msg.content with
    | Except.error e =>
      let r := sendError w ctrl userID e
      ⟨db, r.1, r.2⟩
    | Except.ok (message, db2) =>
      let r := broadcastToChat w db2 ctrl msg.chatID
        { type := "new_message", chatID := message.chatID
          content := "", data := message.content }
      ⟨db2, r.1, r.2⟩

/-- `handleJoinChat`: validate, check access via the service, acknowledge to
the requester only. -/
def handleJoinChat (w : WriteEnv) (db : ChatDB) (ctrl : Ctrl) (userID : Nat)
    (msg : Msg) : HandlerOut :=
  if msg.chatID == 0 then
    let r := sendError w ctrl userID "Invalid chat ID"
    ⟨db, r.1, r.2⟩
  else
    match GetChatByID db msg.chatID userID with
    | Except.error e =>
      let r := sendError w ctrl userID e
      ⟨db, r.1, r.2⟩
    | Except.ok chat =>
      let r := sendToUser w ctrl userID
        { type := "joined_chat", chatID := chat.id
          content := "", data := "Joined chat successfully" }
      ⟨db, r.1, r.2⟩

/-- `handleMarkRead`: validate, mark through the service, acknowledge to the
requester only. -/
def handleMarkRead (w : WriteEnv) (db : ChatDB) (ctrl : Ctrl) (userID : Nat)
    (msg : Msg) : HandlerOut :=
  if msg.chatID == 0 then
    let r := sendError w ctrl userID "Invalid chat ID"
    ⟨db, r.1, r.2⟩
  else
    match MarkMessagesAsRead db msg.chatID userID with
    | Except.error e =>
      let r := sendError w ctrl userID e
      ⟨db, r.1, r.2⟩
    | Except.ok db2 =>
      let r := sendToUser w ctrl userID
        { type := "messages_marked_read", chatID := msg.chatID
          content := "", data := "chat_id" }
      ⟨db2, r.1, r.2⟩

/-- The `switch msg.Type` dispatch of the Active loop body.  Unknown types
are logged and ignored. -/
def dispatch (w : WriteEnv) (db : ChatDB) (ctrl : Ctrl) (userID : Nat)
    (msg : Msg) : HandlerOut :=
  match msg.type with
  | "ping" =>
    let r := sendToUser w ctrl userID
      { type := "pong", chatID := 0, content := "", data := "timestamp" }
    ⟨db, r.1, r.2⟩
  | "send_message" => handleSendMessage w db ctrl userID msg
  | "join_chat" => handleJoinChat w db ctrl userID msg
  | "mark_read" => handleMarkRead w db ctrl userID msg
  | _ => ⟨db, ctrl, Trace.empty⟩

/-- One result of `c.ReadJSON`: a decoded frame, or a transport-level
failure (read error, decode failure, or timeout). -/
inductive ReadResult where
  | frame (msg : Msg)
  | failure
deriving DecidableEq

def ReadResult.isFrame : ReadResult → Bool
  | .frame _ => true
  | .failure => false

/-- The Active read loop: read, break on failure, dispatch, repeat.  The
environment supplies the finite sequence of read results. -/
def runLoop (w : WriteEnv) (userID : Nat) : List ReadResult → ChatDB → Ctrl → HandlerOut
  | [], db, ctrl => ⟨db, ctrl, Trace.empty⟩
  | ReadResult.failure :: _, db, ctrl => ⟨db, ctrl, Trace.empty⟩
  | ReadResult.frame msg :: rest, db, ctrl =>
    let h := dispatch w db ctrl userID msg
    let h2 := runLoop w userID rest h.db h.ctrl
    ⟨h2.db, h2.ctrl, Trace.append h.trace h2.trace⟩

/-- The deferred cleanup of `HandleWebSocket`: delete this participant's
registry entry (unconditionally) and close the session's own handle. -/
def sessionCleanup (ctrl : Ctrl) (userID : Nat) : Ctrl :=
  { connections := registryDelete ctrl.connections userID }

/-- `strconv.ParseUint(s, 10, 32)`: decimal digits only, non-empty, result
below `2^32`. -/
def parseUint32 (s : String) : Option Nat :=
  if s.isEmpty then none
  else
    let n := s.data.foldl (fun acc c =>
      acc.bind (fun v => if c.isDigit then some (v * 10 + (c.toNat - 48)) else none))
      (some 0)
    n.bind (fun v => if v < 2 ^ 32 then some v else none)

/-- Everything a finished session produced, plus how many times the
deferred cleanup ran. -/
structure SessionOut where
  db : ChatDB
  ctrl : Ctrl
  trace : Trace
  cleanups : Nat
deriving DecidableEq

/-- The environment's JWT verifier: `some uid` for a token carrying that
user id in its claims, `none` for a verification failure. -/
def VerifyEnv := String → Option Nat

/-- The Active phase of `HandleWebSocket`: register the connection, send
the `connected` acknowledgement, run the read loop, then run the deferred
cleanup exactly once. -/
def activePhase (w : WriteEnv) (userID cid : Nat) (inputs : List ReadResult)
    (db : ChatDB) (ctrl : Ctrl) : SessionOut :=
  let ctrl1 : Ctrl := { connections := registryInsert ctrl.connections userID cid }
  let r := sendToUser w ctrl1 userID
    { type := "connected", chatID := 0, content := "", data := "Connected to chat server" }
  let h := runLoop w userID inputs db r.1
  let ctrl3 := sessionCleanup h.ctrl userID
  ⟨h.db, ctrl3, Trace.append (Trace.append r.2 h.trace) ⟨[], [], [cid]⟩, 1⟩

/-- `HandleWebSocket`: parse the handshake parameters, verify the optional
token, then run the Active phase.  Any handshake failure closes the handle
with no registry entry and no events. -/
def HandleWebSocket (w : WriteEnv) (verify : VerifyEnv) (userIDStr token : String)
    (cid : Nat) (inputs : List ReadResult) (db : ChatDB) (ctrl : Ctrl) : SessionOut :=
  if userIDStr == "" then ⟨db, ctrl, ⟨[], [], [cid]⟩, 0⟩
  else
    match parseUint32 userIDStr with
    | none => ⟨db, ctrl, ⟨[], [], [cid]⟩, 0⟩
    | some userID =>
      if token != "" then
        match verify token with
        | none => ⟨db, ctrl, ⟨[], [], [cid]⟩, 0⟩
        | some claimsUserID =>
          if claimsUserID != userID then ⟨db, ctrl, ⟨[], [], [cid]⟩, 0⟩
          else activePhase w userID cid inputs db ctrl
      else activePhase w userID cid inputs db ctrl

/-! ## Loop characterization -/

/-- The frames read before the first transport-level failure. -/
def framesOf (inputs : List ReadResult) : List Msg :=
  (inputs.takeWhile ReadResult.isFrame).filterMap
    (fun r => match r with | ReadResult.frame m => some m | ReadResult.failure => none)

/-- Sequential dispatch of a list of frames. -/
def processFrames (w : WriteEnv) (userID : Nat) : List Msg → ChatDB → Ctrl → HandlerOut
  | [], db, ctrl => ⟨db, ctrl, Trace.empty⟩
  | m :: rest, db, ctrl =>
    let h := dispatch w db ctrl userID m
    let h2 := processFrames w userID rest h.db h.ctrl
    ⟨h2.db, h2.ctrl, Trace.append h.trace h2.trace⟩

/-! ## Concrete fixtures used by witnesses and counterexamples -/

/-- An environment in which every write succeeds. -/
def wfalse : WriteEnv := fun _ => false

/-- An environment in which every token fails verification. -/
def vnone : VerifyEnv := fun _ => none

/-- The `error` envelope produced by an invalid `send_message` command. -/
def invalidDataMsg : Msg := ⟨"error", 0, "", "Invalid message data"⟩

def c1db : ChatDB := ⟨[⟨1, 5, 7⟩], [], 2, 1⟩
def c1ctrl : Ctrl := ⟨[(5, 105), (7, 107)]⟩
def c1w : WriteEnv := fun cid => cid == 107
def c1msg : Msg := ⟨"new_message", 1, "", "hi"⟩

def c3inputs : List ReadResult := [ReadResult.frame ⟨"ping", 0, "", ""⟩, ReadResult.failure]
def c3db : ChatDB := ⟨[], [], 1, 1⟩
def c3ctrl : Ctrl := ⟨[]⟩

def c5db : ChatDB := ⟨[⟨1, 1, 2⟩], [⟨1, 1, 2, "hi", false⟩, ⟨2, 1, 1, "own", false⟩], 2, 3⟩
def c5db2 : ChatDB := ⟨[⟨1, 1, 2⟩], [⟨1, 1, 2, "hi", true⟩, ⟨2, 1, 1, "own", false⟩], 2, 3⟩

def c6ctrl : Ctrl := ⟨[(3, 30)]⟩
def c6w : WriteEnv := fun cid => cid == 30
def c6msg : Msg := ⟨"send_message", 0, "hello", ""⟩
def c6db : ChatDB := ⟨[], [], 1, 1⟩

def c8db : ChatDB := ⟨[⟨1, 5, 7⟩], [], 2, 1⟩
def c8ctrl : Ctrl := ⟨[(5, 105)]⟩
def c8msg : Msg := ⟨"new_message", 1, "", "x"⟩

def c9ctrl : Ctrl := ⟨[(4, 40)]⟩
def c9w : WriteEnv := fun cid => cid == 40
def c9msg : Msg := ⟨"pong", 0, "", "timestamp"⟩

/-! ## Helper lemmas -/

/-- Deleting a user's registry entry makes lookup of that user fail. -/
theorem registryLookup_delete (conns : List (Nat × Nat)) (uid : Nat) :
    registryLookup (registryDelete conns uid) uid = none := by
  unfold registryLookup registryDelete
  have h : (conns.filter (fun p => p.1 != uid)).find? (fun p => p.1 == uid) = none := by
    rw [List.find?_eq_none]
    intro x hx
    have := (List.mem_filter.mp hx).2
    simp_all
  rw [h]
  rfl

/-- Every write attempted by `sendToUser` targets the given user and
carries the given envelope. -/
theorem sendToUser_attempts (w : WriteEnv) (ctrl : Ctrl) (uid : Nat) (m : Msg) :
    ∀ a ∈ (sendToUser w ctrl uid m).2.attempts, a.uid = uid ∧ a.msg = m := by
  unfold sendToUser
  split
  · simp [Trace.empty]
  · split
    · simp
    · simp

/-- Every write attempted by `broadcastOne` targets the given user and
carries the given envelope. -/
theorem broadcastOne_attempts (w : WriteEnv) (ctrl : Ctrl) (target : Nat) (m : Msg) :
    ∀ a ∈ (broadcastOne w ctrl target m).attempts, a.uid = target ∧ a.msg = m := by
  unfold broadcastOne
  split
  · simp [Trace.empty]
  · split
    · simp
    · simp

/-- `broadcastOne` never closes a handle. -/
theorem broadcastOne_closed (w : WriteEnv) (ctrl : Ctrl) (target : Nat) (m : Msg) :
    (broadcastOne w ctrl target m).closed = [] := by
  unfold broadcastOne
  split
  · rfl
  · split <;> rfl

/-- A connected target receives a write attempt from `broadcastOne`. -/
theorem broadcastOne_mem (w : WriteEnv) (ctrl : Ctrl) (target : Nat) (m : Msg)
    (c : Nat) (h : registryLookup ctrl.connections target = some c) :
    (⟨target, c, m⟩ : Attempt) ∈ (broadcastOne w ctrl target m).attempts := by
  unfold broadcastOne
  rw [h]
  by_cases hw : w c = true
  · simp [hw]
  · simp [hw]

/-- Every write attempted by `broadcastToChat` carries the broadcast
envelope itself. -/
theorem broadcastToChat_attempts (w : WriteEnv) (db : ChatDB) (ctrl : Ctrl)
    (chatID : Nat) (m : Msg) :
    ∀ a ∈ (broadcastToChat w db ctrl chatID m).2.attempts, a.msg = m := by
  unfold broadcastToChat
  split
  · simp [Trace.empty]
  · intro a ha
    simp only [Trace.append, List.mem_append] at ha
    rcases ha with ha | ha
    · exact (broadcastOne_attempts w ctrl _ m a ha).2
    · exact (broadcastOne_attempts w ctrl _ m a ha).2

/-- Error events produced by `handleSendMessage` target the originator. -/
theorem handleSendMessage_error_target (w : WriteEnv) (db : ChatDB) (ctrl : Ctrl)
    (uid : Nat) (m : Msg) :
    ∀ a ∈ (handleSendMessage w db ctrl uid m).trace.attempts,
      a.msg.type = "error" → a.uid = uid := by
  unfold handleSendMessage sendError
  split
  · intro a ha _
    exact (sendToUser_attempts w ctrl uid _ a ha).1
  · split
    · intro a ha _
      exact (sendToUser_attempts w ctrl uid _ a ha).1
    · intro a ha hty
      have := broadcastToChat_attempts w _ ctrl m.chatID _ a ha
      rw [this] at hty
      simp at hty

/-- Error events produced by `handleJoinChat` target the originator. -/
theorem handleJoinChat_error_target (w : WriteEnv) (db : ChatDB) (ctrl : Ctrl)
    (uid : Nat) (m : Msg) :
    ∀ a ∈ (handleJoinChat w db ctrl uid m).trace.attempts,
      a.msg.type = "error" → a.uid = uid := by
  unfold handleJoinChat sendError
  split
  · intro a ha _
    exact (sendToUser_attempts w ctrl uid _ a ha).1
  · split
    · intro a ha _
      exact (sendToUser_attempts w ctrl uid _ a ha).1
    · intro a ha _
      exact (sendToUser_attempts w ctrl uid _ a ha).1

/-- Error events produced by `handleMarkRead` target the originator. -/
theorem handleMarkRead_error_target (w : WriteEnv) (db : ChatDB) (ctrl : Ctrl)
    (uid : Nat) (m : Msg) :
    ∀ a ∈ (handleMarkRead w db ctrl uid m).trace.attempts,
      a.msg.type = "error" → a.uid = uid := by
  unfold handleMarkRead sendError
  split
  · intro a ha _
    exact (sendToUser_attempts w ctrl uid _ a ha).1
  · split
    · intro a ha _
      exact (sendToUser_attempts w ctrl uid _ a ha).1
    · intro a ha _
      exact (sendToUser_attempts w ctrl uid _ a ha).1

/-- Error events produced by `dispatch` target the originator. -/
theorem dispatch_error_target (w : WriteEnv) (db : ChatDB) (ctrl : Ctrl)
    (uid : Nat) (m : Msg) :
    ∀ a ∈ (dispatch w db ctrl uid m).trace.attempts,
      a.msg.type = "error" → a.uid = uid := by
  unfold dispatch
  split
  · intro a ha _
    exact (sendToUser_attempts w ctrl uid _ a ha).1
  · exact handleSendMessage_error_target w db ctrl uid m
  · exact handleJoinChat_error_target w db ctrl uid m
  · exact handleMarkRead_error_target w db ctrl uid m
  · simp [Trace.empty]

/-- The read loop is the sequential dispatch of exactly the frames read
before the first transport failure. -/
theorem runLoop_eq_processFrames (w : WriteEnv) (uid : Nat) (inputs : List ReadResult) :
    ∀ db ctrl, runLoop w uid inputs db ctrl = processFrames w uid (framesOf inputs) db ctrl := by
  induction inputs with
  | nil => intro db ctrl; rfl
  | cons r rest ih =>
    cases r with
    | failure =>
      intro db ctrl
      simp [runLoop, framesOf, List.takeWhile, ReadResult.isFrame, processFrames]
    | frame m =>
      intro db ctrl
      have hf : framesOf (ReadResult.frame m :: rest) = m :: framesOf rest := by
        simp [framesOf, List.takeWhile, ReadResult.isFrame]
      rw [hf]
      simp only [runLoop, processFrames]
      rw [ih]

/-- Error events in the whole loop trace target the session's user. -/
theorem runLoop_error_target (w : WriteEnv) (uid : Nat) (inputs : List ReadResult) :
    ∀ db ctrl, ∀ a ∈ (runLoop w uid inputs db ctrl).trace.attempts,
      a.msg.type = "error" → a.uid = uid := by
  induction inputs with
  | nil => intro db ctrl a ha; simp [runLoop, Trace.empty] at ha
  | cons r rest ih =>
    cases r with
    | failure => intro db ctrl a ha; simp [runLoop, Trace.empty] at ha
    | frame m =>
      intro db ctrl a ha
      simp only [runLoop, Trace.append, List.mem_append] at ha
      rcases ha with ha | ha
      · exact dispatch_error_target w db ctrl uid m a ha
      · exact ih _ _ a ha

/-! ## Claim theorems -/

/-- C1 (counterexample): in a chat between 5 and 7 with both connected,
when the write to participant 7's connection fails during a broadcast
(attempted but not delivered), participant 7's registry entry is NOT
removed — contradicting the claim that the failed recipient is evicted so
that a following broadcast finds no connection. -/
theorem broadcast_write_failure_keeps_entry :
    registryLookup c1ctrl.connections 7 = some 107 ∧
    (broadcastToChat c1w c1db c1ctrl 1 c1msg).2.attempts =
      [⟨5, 105, c1msg⟩, ⟨7, 107, c1msg⟩] ∧
    (broadcastToChat c1w c1db c1ctrl 1 c1msg).2.delivered = [⟨5, 105, c1msg⟩] ∧
    registryLookup (broadcastToChat c1w c1db c1ctrl 1 c1msg).1.connections 7 ≠ none := by
  decide

/-- C1 (amended): a write failure during `broadcastToChat` is logged only —
the broadcast never mutates the ConnectionRegistry and never closes a
handle; eviction of stale entries on write failure happens only in the
direct `sendToUser` path. -/
theorem broadcastToChat_preserves_registry (w : WriteEnv) (db : ChatDB) (ctrl : Ctrl)
    (chatID : Nat) (m : Msg) :
    (broadcastToChat w db ctrl chatID m).1 = ctrl ∧
    (broadcastToChat w db ctrl chatID m).2.closed = [] := by
  unfold broadcastToChat
  split
  · exact ⟨rfl, rfl⟩
  · refine ⟨rfl, ?_⟩
    simp [Trace.append, broadcastOne_closed]

/-- C2: the Active loop processes exactly the frames read before the first
transport-level failure — no inbound command, and no failure inside a
handler, ever terminates the loop; every `error` event attempted anywhere
in the loop's trace is addressed to the originating session's user; and a
ChatStore failure in `send_message` is converted into exactly the
`sendError` effect for the originator, leaving the store untouched. -/
theorem activeLoop_failure_isolation (w : WriteEnv) (uid : Nat)
    (inputs : List ReadResult) (db : ChatDB) (ctrl : Ctrl) :
    runLoop w uid inputs db ctrl = processFrames w uid (framesOf inputs) db ctrl ∧
    (∀ a ∈ (runLoop w uid inputs db ctrl).trace.attempts,
      a.msg.type = "error" → a.uid = uid) ∧
    (∀ m2 e, m2.type = "send_message" → (m2.chatID == 0 || m2.content == "") = false →
      SendMessage db m2.chatID uid m2.content = Except.error e →
      dispatch w db ctrl uid m2 = ⟨db, (sendError w ctrl uid e).1, (sendError w ctrl uid e).2⟩) := by
  refine ⟨runLoop_eq_processFrames w uid inputs db ctrl,
    runLoop_error_target w uid inputs db ctrl, ?_⟩
  intro m2 e hty hval herr
  have hd : dispatch w db ctrl uid m2 = handleSendMessage w db ctrl uid m2 := by
    unfold dispatch
    rw [hty]
    rfl
  rw [hd]
  unfold handleSendMessage
  rw [if_neg (by simp [hval]), herr]

/-- C3: every session that authenticates (non-empty parseable user id and
an absent or matching token) and thus reaches the Active state runs the
deferred cleanup exactly once on loop exit: afterwards the registry holds
no entry for the participant id and the session's handle is closed. -/
theorem handleWebSocket_cleanup_once (w : WriteEnv) (verify : VerifyEnv)
    (userIDStr token : String) (cid : Nat) (inputs : List ReadResult)
    (db : ChatDB) (ctrl : Ctrl) (uid : Nat)
    (h1 : userIDStr ≠ "") (h2 : parseUint32 userIDStr = some uid)
    (h3 : token = "" ∨ verify token = some uid) :
    (HandleWebSocket w verify userIDStr token cid inputs db ctrl).cleanups = 1 ∧
    registryLookup
      (HandleWebSocket w verify userIDStr token cid inputs db ctrl).ctrl.connections uid = none ∧
    cid ∈ (HandleWebSocket w verify userIDStr token cid inputs db ctrl).trace.closed := by
  have hred : HandleWebSocket w verify userIDStr token cid inputs db ctrl =
      activePhase w uid cid inputs db ctrl := by
    unfold HandleWebSocket
    rcases h3 with h3 | h3
    · simp [h1, h2, h3]
    · by_cases ht : token = ""
      · simp [h1, h2, ht]
      · simp [h1, h2, ht, h3]
  refine ⟨?_, ?_, ?_⟩ <;>
    rw [hred] <;>
    simp [activePhase, sessionCleanup, Trace.append, registryLookup_delete]

/-- C3 witness: a concrete session for user 5 on handle 9 that pings once
and then hits a read failure. -/
theorem handleWebSocket_cleanup_once_witness :
    ("5" ≠ "" ∧ parseUint32 "5" = some 5) ∧
    (HandleWebSocket wfalse vnone "5" "" 9 c3inputs c3db c3ctrl).cleanups = 1 ∧
    registryLookup
      (HandleWebSocket wfalse vnone "5" "" 9 c3inputs c3db c3ctrl).ctrl.connections 5 = none ∧
    9 ∈ (HandleWebSocket wfalse vnone "5" "" 9 c3inputs c3db c3ctrl).trace.closed :=
  ⟨⟨by decide, by decide⟩,
    handleWebSocket_cleanup_once wfalse vnone "5" "" 9 c3inputs c3db c3ctrl 5
      (by decide) (by decide) (Or.inl rfl)⟩

/-- C4: `GetOrCreateChat` is symmetric in its two arguments for distinct
users, and (on a store whose chat rows are normalized) the returned chat
stores the numerically smaller id as its first participant. -/
theorem getOrCreateChat_canonical (db : ChatDB) (a b : Nat) (hab : a ≠ b) :
    GetOrCreateChat db a b = GetOrCreateChat db b a ∧
    (db.normalized → ∀ c db2, GetOrCreateChat db a b = Except.ok (c, db2) →
      c.user1ID = min a b ∧ c.user2ID = max a b) := by
  have hba : b ≠ a := Ne.symm hab
  rcases Nat.lt_or_gt_of_ne hab with hlt | hlt
  · have h1 : ¬ a > b := Nat.lt_asymm hlt
    have hmin : min a b = a := Nat.min_eq_left (Nat.le_of_lt hlt)
    have hmax : max a b = b := Nat.max_eq_right (Nat.le_of_lt hlt)
    constructor
    · unfold GetOrCreateChat
      simp [hab, hba, h1, hlt]
    · intro hnorm c db2 hok
      unfold GetOrCreateChat at hok
      simp only [beq_iff_eq, hab, if_false] at hok
      rw [if_neg h1, if_neg h1] at hok
      rcases hfind : db.chats.find? (fun c =>
          (c.user1ID == a && c.user2ID == b) || (c.user1ID == b && c.user2ID == a)) with _ | c0
      · rw [hfind] at hok
        simp at hok
        obtain ⟨hc, -⟩ := hok
        subst hc
        rw [hmin, hmax]
        exact ⟨rfl, rfl⟩
      · rw [hfind] at hok
        simp at hok
        obtain ⟨hc, -⟩ := hok
        subst hc
        have hp := List.find?_some hfind
        have hmem := List.mem_of_find?_eq_some hfind
        have hle := hnorm c0 hmem
        rw [hmin, hmax]
        simp only [Bool.or_eq_true, Bool.and_eq_true, beq_iff_eq] at hp
        rcases hp with ⟨hx, hy⟩ | ⟨hx, hy⟩
        · exact ⟨hx, hy⟩
        · rw [hx, hy] at hle
          omega
  · have h1 : a > b := hlt
    have h1x : ¬ b > a := Nat.lt_asymm hlt
    have hmin : min a b = b := Nat.min_eq_right (Nat.le_of_lt hlt)
    have hmax : max a b = a := Nat.max_eq_left (Nat.le_of_lt hlt)
    constructor
    · unfold GetOrCreateChat
      simp [hab, hba, h1, h1x]
    · intro hnorm c db2 hok
      unfold GetOrCreateChat at hok
      simp only [beq_iff_eq, hab, if_false] at hok
      rw [if_pos h1, if_pos h1] at hok
      rcases hfind : db.chats.find? (fun c =>
          (c.user1ID == b && c.user2ID == a) || (c.user1ID == a && c.user2ID == b)) with _ | c0
      · rw [hfind] at hok
        simp at hok
        obtain ⟨hc, -⟩ := hok
        subst hc
        rw [hmin, hmax]
        exact ⟨rfl, rfl⟩
      · rw [hfind] at hok
        simp at hok
        obtain ⟨hc, -⟩ := hok
        subst hc
        have hp := List.find?_some hfind
        have hmem := List.mem_of_find?_eq_some hfind
        have hle := hnorm c0 hmem
        rw [hmin, hmax]
        simp only [Bool.or_eq_true, Bool.and_eq_true, beq_iff_eq] at hp
        rcases hp with ⟨hx, hy⟩ | ⟨hx, hy⟩
        · exact ⟨hx, hy⟩
        · rw [hx, hy] at hle
          omega

/-- C4 witness: `GetOrCreateChat` on an empty store agrees for (2,1) and
(1,2). -/
theorem getOrCreateChat_canonical_witness :
    (2 : Nat) ≠ 1 ∧
    GetOrCreateChat ⟨[], [], 1, 1⟩ 2 1 = GetOrCreateChat ⟨[], [], 1, 1⟩ 1 2 :=
  ⟨by decide, (getOrCreateChat_canonical ⟨[], [], 1, 1⟩ 2 1 (by decide)).1⟩

/-- C5: `MarkMessagesAsRead` never changes any message row whose sender is
the reader; a row it does change belongs to the given chat and was
authored by the other participant. -/
theorem markMessagesAsRead_own_untouched (db : ChatDB) (chatID userID : Nat)
    (db2 : ChatDB) (h : MarkMessagesAsRead db chatID userID = Except.ok db2) :
    db2.messages.length = db.messages.length ∧
    ∀ i (hi : i < db.messages.length) (hi2 : i < db2.messages.length),
      (db.messages[i].senderID = userID → db2.messages[i] = db.messages[i]) ∧
      (db2.messages[i] ≠ db.messages[i] →
        db.messages[i].chatID = chatID ∧ db.messages[i].senderID ≠ userID) := by
  unfold MarkMessagesAsRead at h
  by_cases hacc : UserHasAccessToChat db chatID userID
  · rw [if_neg (by simp [hacc])] at h
    simp only [Except.ok.injEq] at h
    subst h
    constructor
    · simp
    · intro i hi hi2
      simp only [List.getElem_map]
      constructor
      · intro hs
        unfold markReadRow
        rw [if_neg (by simp [hs])]
      · intro hne
        unfold markReadRow at hne
        by_cases hcond : (db.messages[i].chatID == chatID &&
            db.messages[i].senderID != userID &&
            db.messages[i].isRead == false) = true
        · simp only [Bool.and_eq_true, beq_iff_eq, bne_iff_ne] at hcond
          exact ⟨hcond.1.1, hcond.1.2⟩
        · rw [if_neg hcond] at hne
          exact absurd rfl hne
  · rw [if_pos (by simp [hacc])] at h
    exact absurd h (by simp)

/-- C5 witness: in a chat between 1 and 2, marking as read for user 1
flips only the message from sender 2, and preserves the message count. -/
theorem markMessagesAsRead_own_untouched_witness :
    MarkMessagesAsRead c5db 1 1 = Except.ok c5db2 ∧
    c5db2.messages.length = c5db.messages.length :=
  ⟨by decide, (markMessagesAsRead_own_untouched c5db 1 1 c5db2 (by decide)).1⟩

/-- C6 (counterexample): a connected sender whose own socket write fails
shows that `send_message` with `chat_id = 0` can mutate the registry: the
error event's failed write evicts the sender's entry via `sendToUser`,
contradicting the claimed "zero registry mutations". -/
theorem sendMessage_invalid_mutates_registry :
    registryLookup c6ctrl.connections 3 = some 30 ∧
    c6msg.type = "send_message" ∧ c6msg.chatID = 0 ∧
    (handleSendMessage c6w c6db c6ctrl 3 c6msg).ctrl ≠ c6ctrl := by
  decide

/-- C6 (amended): `send_message` with zero chat id or empty content makes
no ChatStore call and attempts exactly one `error` event to the sender;
if the sender's connection write succeeds the registry is unchanged, and
if it fails the sender's own entry is evicted and the handle closed
(`sendToUser` self-healing) — still with no store call. -/
theorem handleSendMessage_invalid (w : WriteEnv) (db : ChatDB) (ctrl : Ctrl)
    (uid : Nat) (m : Msg) (cid : Nat)
    (hinv : m.chatID = 0 ∨ m.content = "")
    (hconn : registryLookup ctrl.connections uid = some cid) :
    (w cid = false →
      handleSendMessage w db ctrl uid m =
        ⟨db, ctrl, ⟨[⟨uid, cid, invalidDataMsg⟩], [⟨uid, cid, invalidDataMsg⟩], []⟩⟩) ∧
    (w cid = true →
      handleSendMessage w db ctrl uid m =
        ⟨db, ⟨registryDelete ctrl.connections uid⟩,
          ⟨[⟨uid, cid, invalidDataMsg⟩], [], [cid]⟩⟩) := by
  have hcond : (m.chatID == 0 || m.content == "") = true := by
    rcases hinv with h | h <;> simp [h]
  unfold handleSendMessage sendError sendToUser
  rw [if_pos hcond, hconn]
  constructor
  · intro hw
    simp [hw, invalidDataMsg]
  · intro hw
    simp [hw, invalidDataMsg]

/-- C6 witness: sender 3 on handle 30 with a succeeding write: one error
event, store and registry untouched. -/
theorem handleSendMessage_invalid_witness :
    (c6msg.chatID = 0 ∧ registryLookup c6ctrl.connections 3 = some 30) ∧
    handleSendMessage wfalse c6db c6ctrl 3 c6msg =
      ⟨c6db, c6ctrl, ⟨[⟨3, 30, invalidDataMsg⟩], [⟨3, 30, invalidDataMsg⟩], []⟩⟩ :=
  ⟨⟨rfl, by decide⟩,
    (handleSendMessage_invalid wfalse c6db c6ctrl 3 c6msg 30 (Or.inl rfl) (by decide)).1 rfl⟩

/-- C7: a handshake whose `user_id` is missing or unparsable leaves the
store and registry exactly as they were, sends nothing (no `connected`
acknowledgement, no attempts at all), closes the handle, and never runs
the session cleanup. -/
theorem handshake_reject (w : WriteEnv) (verify : VerifyEnv)
    (userIDStr token : String) (cid : Nat) (inputs : List ReadResult)
    (db : ChatDB) (ctrl : Ctrl)
    (h : userIDStr = "" ∨ parseUint32 userIDStr = none) :
    HandleWebSocket w verify userIDStr token cid inputs db ctrl =
      ⟨db, ctrl, ⟨[], [], [cid]⟩, 0⟩ := by
  unfold HandleWebSocket
  rcases h with h | h
  · simp [h]
  · by_cases hs : userIDStr = ""
    · simp [hs]
    · simp [hs, h]

/-- C7 witness: the unparsable id "12ab" is rejected with no events and no
registry entry. -/
theorem handshake_reject_witness :
    parseUint32 "12ab" = none ∧
    HandleWebSocket wfalse vnone "12ab" "" 9 [] c3db c3ctrl =
      ⟨c3db, c3ctrl, ⟨[], [], [9]⟩, 0⟩ :=
  ⟨by decide, handshake_reject wfalse vnone "12ab" "" 9 [] c3db c3ctrl (Or.inr (by decide))⟩

/-- C8: when the participant lookup succeeds, `broadcastToChat` leaves the
registry unchanged, attempts delivery to each connected participant
independently of the other's connection state or write outcome, and every
attempted write carries the broadcast event itself (never an `error` to
the sender). -/
theorem broadcast_targets_independent (w : WriteEnv) (db : ChatDB) (ctrl : Ctrl)
    (chatID : Nat) (m : Msg) (u1 u2 : Nat)
    (h : GetChatParticipants db chatID = Except.ok (u1, u2)) :
    (broadcastToChat w db ctrl chatID m).1 = ctrl ∧
    (∀ c1, registryLookup ctrl.connections u1 = some c1 →
      (⟨u1, c1, m⟩ : Attempt) ∈ (broadcastToChat w db ctrl chatID m).2.attempts) ∧
    (∀ c2, registryLookup ctrl.connections u2 = some c2 →
      (⟨u2, c2, m⟩ : Attempt) ∈ (broadcastToChat w db ctrl chatID m).2.attempts) ∧
    (∀ a ∈ (broadcastToChat w db ctrl chatID m).2.attempts, a.msg = m) := by
  have hb : broadcastToChat w db ctrl chatID m =
      (ctrl, Trace.append (broadcastOne w ctrl u1 m) (broadcastOne w ctrl u2 m)) := by
    unfold broadcastToChat
    rw [h]
  refine ⟨by rw [hb], ?_, ?_, broadcastToChat_attempts w db ctrl chatID m⟩
  · intro c1 hc1
    rw [hb]
    simp only [Trace.append, List.mem_append]
    exact Or.inl (broadcastOne_mem w ctrl u1 m c1 hc1)
  · intro c2 hc2
    rw [hb]
    simp only [Trace.append, List.mem_append]
    exact Or.inr (broadcastOne_mem w ctrl u2 m c2 hc2)

/-- C8 witness: chat 1 between 5 and 7 with only 5 connected; the
broadcast leaves the registry unchanged. -/
theorem broadcast_targets_independent_witness :
    GetChatParticipants c8db 1 = Except.ok (5, 7) ∧
    (broadcastToChat wfalse c8db c8ctrl 1 c8msg).1 = c8ctrl :=
  ⟨by decide, (broadcast_targets_independent wfalse c8db c8ctrl 1 c8msg 5 7 (by decide)).1⟩

/-- C9: a direct send whose write fails evicts the target's registry entry
and closes the handle; the trace shows the single failed attempt, nothing
delivered, and no error event sent to anyone. -/
theorem sendToUser_write_failure (w : WriteEnv) (ctrl : Ctrl) (uid : Nat) (m : Msg)
    (cid : Nat) (hconn : registryLookup ctrl.connections uid = some cid)
    (hfail : w cid = true) :
    sendToUser w ctrl uid m =
      (⟨registryDelete ctrl.connections uid⟩, ⟨[⟨uid, cid, m⟩], [], [cid]⟩) ∧
    registryLookup (sendToUser w ctrl uid m).1.connections uid = none := by
  have h : sendToUser w ctrl uid m =
      (⟨registryDelete ctrl.connections uid⟩, ⟨[⟨uid, cid, m⟩], [], [cid]⟩) := by
    unfold sendToUser
    rw [hconn]
    simp [hfail]
  refine ⟨h, ?_⟩
  rw [h]
  exact registryLookup_delete ctrl.connections uid

/-- C9 witness: a failed `pong` write to user 4 on handle 40 evicts the
entry. -/
theorem sendToUser_write_failure_witness :
    (registryLookup c9ctrl.connections 4 = some 40 ∧ c9w 40 = true) ∧
    registryLookup (sendToUser c9w c9ctrl 4 c9msg).1.connections 4 = none :=
  ⟨⟨by decide, by decide⟩,
    (sendToUser_write_failure c9w c9ctrl 4 c9msg 40 (by decide) (by decide)).2⟩

/-- C10: the deferred cleanup deletes whatever entry is currently stored
under the participant id, without checking handle ownership: after a
second connection for the same id overwrites the first entry, the first
session's cleanup deletes the second, still-live connection's entry and
lookup of the id becomes absent. -/
theorem cleanup_deletes_current_entry (conns : List (Nat × Nat)) (uid c1 c2 : Nat) :
    registryLookup (registryInsert (registryInsert conns uid c1) uid c2) uid = some c2 ∧
    (sessionCleanup ⟨registryInsert (registryInsert conns uid c1) uid c2⟩ uid).connections =
      registryDelete (registryInsert (registryInsert conns uid c1) uid c2) uid ∧
    registryLookup
      (sessionCleanup ⟨registryInsert (registryInsert conns uid c1) uid c2⟩ uid).connections uid =
      none := by
  refine ⟨?_, rfl, registryLookup_delete _ _⟩
  unfold registryLookup registryInsert
  simp [List.find?]
